import Mathlib

/-!
Shallow embedding of the screen-coordination layer of the MindGraph ESP32
firmware (src/esp32/firmware/main): the Standby/Loading/Launcher screen
state machine (standby_screen.cpp, loading_screen.cpp, launcher.cpp), the
button callbacks and the boot-time network step (main.cpp), and the I2C bus
singleton (i2c_bus_manager.cpp).

Modelling conventions:
- Each `lv_obj_t*` screen pointer is modelled by a Bool "constructed" flag;
  widget-tree contents built by LVGL are opaque and not modelled, but a
  `construct` event is emitted whenever the source would call
  `lv_obj_create` for a screen (i.e. inside the `*_init` functions).
- `lv_screen_load` is modelled by a `loaded : Option Scr` field recording
  which screen object is on the render surface, plus a `load` event.
- `esp_timer_get_time() / 1000` is passed in as an explicit `now : Int`
  parameter to the operations that read it.
- Label texts driven by external managers (RTC, battery, Wi-Fi status) are
  out of scope per the spec; of `standby_screen_update` only the throttle
  timestamp logic is modelled. The spinner-angle fields of the loading
  screen are likewise untouched by every claim and omitted.
- `bsp_display_lock`/`unlock` bracket the mutations in the source; the lock
  broker itself is an external collaborator and the bracketing has no
  observable effect on the modelled state, so it is not represented.
-/

namespace MindGraph

/-- The three lazily-constructed full-screen UI contexts of the firmware. -/
inductive Scr
  | standby
  | loading
  | launcher
deriving DecidableEq, Repr

/-- `enum AppType` from launcher.h. -/
inductive AppType
  | smart_response
  | dify_xiaozhi
deriving DecidableEq, Repr

/-- Observable events emitted by the screen operations: widget-tree
construction (`lv_obj_create` of a screen in an `*_init`), `lv_screen_load`,
writes to a visibility flag, invocation of the registered launch callback
(`dispatch`), and the resulting application `show` call. -/
inductive Ev
  | construct (v : Scr)
  | load (v : Scr)
  | setVisible (v : Scr) (b : Bool)
  | dispatch (a : AppType)
  | appShow (a : AppType)
deriving DecidableEq, Repr

/-- The module-level mutable state of standby_screen.cpp, loading_screen.cpp,
launcher.cpp and main.cpp that the claims are about.  `disp` models whether
`lv_display_get_default()` is non-null (checked only by the loading screen). -/
structure ScreenState where
  disp : Bool
  standby_obj : Bool
  loading_obj : Bool
  launcher_obj : Bool
  standby_visible : Bool
  loading_visible : Bool
  launcher_visible : Bool
  loaded : Option Scr
  standby_last_update : Int
  loading_message : String
  loading_progress : Int
  cb_set : Bool
deriving DecidableEq, Repr

/-- `clamp_percent` from loading_screen.cpp lines 23-27. -/
def clamp_percent (value : Int) : Int :=
  if value < 0 then 0
  else if value > 100 then 100
  else value

/-- `standby_screen_update` from standby_screen.cpp: returns early unless the
screen is visible and constructed, throttles to once per 1000 ms via
`last_update`; the label refreshes it then performs read external managers
and are out of scope. -/
def standby_screen_update (s : ScreenState) (now : Int) : ScreenState :=
  if !s.standby_visible || !s.standby_obj then s
  else if now - s.standby_last_update < 1000 then s
  else { s with standby_last_update := now }

/-- `standby_screen_init` from standby_screen.cpp: constructs the widget tree
once (no-op if `standby_screen != nullptr`) and ends with
`standby_visible = false`. -/
def standby_screen_init (s : ScreenState) : ScreenState × List Ev :=
  if s.standby_obj then (s, [])
  else ({ s with standby_obj := true, standby_visible := false },
        [.construct .standby])

/-- `standby_screen_show` from standby_screen.cpp lines 95-108: construct if
needed, `lv_screen_load`, set `standby_visible = true`, reset `last_update`
to 0, then call `standby_screen_update`. -/
def standby_screen_show (s : ScreenState) (now : Int) : ScreenState × List Ev :=
  let p := if !s.standby_obj then standby_screen_init s else (s, [])
  let s2 := { p.1 with loaded := some Scr.standby, standby_visible := true,
                       standby_last_update := 0 }
  (standby_screen_update s2 now, p.2 ++ [.load .standby, .setVisible .standby true])

/-- `standby_screen_hide` from standby_screen.cpp lines 110-113: clears the
visibility flag and nothing else. -/
def standby_screen_hide (s : ScreenState) : ScreenState × List Ev :=
  ({ s with standby_visible := false }, [.setVisible .standby false])

/-- `loading_screen_init` from loading_screen.cpp: no-op if already
constructed or if the display is not initialised; otherwise builds the
widget tree, sets the message label to the initial text, the bar value to 0,
and ends with `loading_visible = false`. -/
def loading_screen_init (s : ScreenState) : ScreenState × List Ev :=
  if s.loading_obj then (s, [])
  else if !s.disp then (s, [])
  else ({ s with loading_obj := true, loading_visible := false,
                 loading_message := "初始化中...", loading_progress := 0 },
        [.construct .loading])

/-- `loading_screen_set_message` from loading_screen.cpp: writes the message
label when it exists (the label exists exactly when the screen was
constructed). -/
def loading_screen_set_message (s : ScreenState) (message : String) : ScreenState :=
  if s.loading_obj then { s with loading_message := message } else s

/-- `loading_screen_set_progress` from loading_screen.cpp lines 216-223:
when the progress bar exists, stores the clamped percentage. -/
def loading_screen_set_progress (s : ScreenState) (percent : Int) : ScreenState :=
  if s.loading_obj then { s with loading_progress := clamp_percent percent } else s

/-- `loading_screen_show` from loading_screen.cpp lines 165-192: construct if
needed, bail out if construction failed or the display is absent, else
`lv_screen_load`, set visible, reset message and progress. -/
def loading_screen_show (s : ScreenState) : ScreenState × List Ev :=
  let p := if !s.loading_obj then loading_screen_init s else (s, [])
  if !p.1.loading_obj then (p.1, p.2)
  else if !p.1.disp then (p.1, p.2)
  else
    let s2 := { p.1 with loaded := some Scr.loading, loading_visible := true }
    let s3 := loading_screen_set_message s2 "初始化中..."
    (loading_screen_set_progress s3 0,
     p.2 ++ [.load .loading, .setVisible .loading true])

/-- `loading_screen_hide` from loading_screen.cpp: clears the visibility
flag and nothing else. -/
def loading_screen_hide (s : ScreenState) : ScreenState × List Ev :=
  ({ s with loading_visible := false }, [.setVisible .loading false])

/-- `launcher_init` from launcher.cpp lines 60-93: constructs the widget
tree once and ends with `launcher_visible = false`. -/
def launcher_init (s : ScreenState) : ScreenState × List Ev :=
  if s.launcher_obj then (s, [])
  else ({ s with launcher_obj := true, launcher_visible := false },
        [.construct .launcher])

/-- `launcher_show` from launcher.cpp lines 95-105: construct if needed,
`lv_screen_load`, set `launcher_visible = true`.  Note it does not touch the
other screens' visibility flags. -/
def launcher_show (s : ScreenState) : ScreenState × List Ev :=
  let p := if !s.launcher_obj then launcher_init s else (s, [])
  ({ p.1 with loaded := some Scr.launcher, launcher_visible := true },
   p.2 ++ [.load .launcher, .setVisible .launcher true])

/-- `launcher_hide` from launcher.cpp lines 107-111: clears
`launcher_visible` and then calls `standby_screen_show`. -/
def launcher_hide (s : ScreenState) (now : Int) : ScreenState × List Ev :=
  let s1 := { s with launcher_visible := false }
  let p := standby_screen_show s1 now
  (p.1, [Ev.setVisible .launcher false] ++ p.2)

/-- `launcher_set_app_launch_callback` from launcher.cpp; main.cpp installs
a non-null callback, so installation is modelled as a flag. -/
def launcher_set_app_launch_callback (s : ScreenState) : ScreenState :=
  { s with cb_set := true }

/-- `app_launch_callback` from main.cpp lines 55-67: switches on the app
type and calls that application's `show` (the application modules are
external; the call is recorded as an event). -/
def app_launch_callback (a : AppType) : List Ev :=
  match a with
  | .smart_response => [.appShow .smart_response]
  | .dify_xiaozhi => [.appShow .dify_xiaozhi]

/-- `app_btn_event_cb` from launcher.cpp lines 18-31, at an
`LV_EVENT_CLICKED` event on the button whose user data is `a`: if a launch
callback is registered invoke it, then call `launcher_hide`. -/
def app_btn_event_cb (s : ScreenState) (a : AppType) (now : Int) :
    ScreenState × List Ev :=
  let e1 := if s.cb_set then [Ev.dispatch a] ++ app_launch_callback a else []
  let p := launcher_hide s now
  (p.1, e1 ++ p.2)

/-- `pwr_button_callback` from main.cpp lines 37-44. -/
def pwr_button_callback (s : ScreenState) (now : Int) : ScreenState × List Ev :=
  if s.standby_visible then launcher_show s
  else if s.launcher_visible then launcher_hide s now
  else (s, [])

/-- `boot_button_callback` from main.cpp lines 46-53. -/
def boot_button_callback (s : ScreenState) (now : Int) : ScreenState × List Ev :=
  if s.launcher_visible then launcher_hide s now
  else if s.standby_visible then launcher_show s
  else (s, [])

/-- `standby_touch_event_cb` from standby_screen.cpp lines 33-38, at a
click/press event: hide standby, then show the launcher. -/
def standby_touch_event_cb (s : ScreenState) : ScreenState × List Ev :=
  let p1 := standby_screen_hide s
  let p2 := launcher_show p1.1
  (p2.1, p1.2 ++ p2.2)

/-- The screen operations and button/touch callback invocations a caller can
perform, with the timer value passed to the operations that read it. -/
inductive Op
  | standbyShow (now : Int)
  | standbyHide
  | loadingShow
  | loadingHide
  | setMessage (m : String)
  | setProgress (p : Int)
  | launcherShow
  | launcherHide (now : Int)
  | setCb
  | pwrBtn (now : Int)
  | bootBtn (now : Int)
  | standbyTouch
  | appBtnClick (a : AppType) (now : Int)

/-- One operation applied to the state, returning the new state and the
emitted observable events. -/
def step (s : ScreenState) : Op → ScreenState × List Ev
  | .standbyShow now => standby_screen_show s now
  | .standbyHide => standby_screen_hide s
  | .loadingShow => loading_screen_show s
  | .loadingHide => loading_screen_hide s
  | .setMessage m => (loading_screen_set_message s m, [])
  | .setProgress p => (loading_screen_set_progress s p, [])
  | .launcherShow => launcher_show s
  | .launcherHide now => launcher_hide s now
  | .setCb => (launcher_set_app_launch_callback s, [])
  | .pwrBtn now => pwr_button_callback s now
  | .bootBtn now => boot_button_callback s now
  | .standbyTouch => standby_touch_event_cb s
  | .appBtnClick a now => app_btn_event_cb s a now

/-- The module-level initial state: no screen constructed, no flag set, no
screen loaded, no callback registered; the display was brought up by
`app_main` before any of these operations run. -/
def initState : ScreenState :=
  { disp := true, standby_obj := false, loading_obj := false,
    launcher_obj := false, standby_visible := false, loading_visible := false,
    launcher_visible := false, loaded := none, standby_last_update := 0,
    loading_message := "", loading_progress := 0, cb_set := false }

/-- Run a sequence of operations from a state. -/
def run (s : ScreenState) : List Op → ScreenState
  | [] => s
  | op :: ops => run (step s op).1 ops

/-! ### Boot-time network step (main.cpp lines 185-206)

`config_get`/`config_save` are the NVS-backed string key/value store of
config_manager (external to src/, declared in config_manager.h and used in
main.cpp); modelled as an association list with overwrite-on-save.
`wifi_connect`/`wifi_start_softap` are external (wifi_manager); whether a
given connect attempt succeeds is an oracle supplied by the environment. -/

/-- The persisted key/value configuration store. -/
abbrev Config := List (String × String)

/-- `config_get(key, default)`: the stored value, or the default. -/
def config_get (cfg : Config) (key dflt : String) : String :=
  match cfg.lookup key with
  | some v => v
  | none => dflt

/-- `config_save(key, value)`: overwrites any prior value for the key. -/
def config_save (cfg : Config) (key value : String) : Config :=
  (key, value) :: cfg.filter (fun kv => kv.1 ≠ key)

/-- Environment oracle: the result `wifi_connect(ssid, password)` would
return for given credentials. -/
structure WifiEnv where
  connect_ok : String → String → Bool

/-- The observable outcome of the network step of `main_task`:
which SSIDs `wifi_connect` was called with, the configuration store
afterwards, whether SoftAP mode was started, and the progress value the
boot sequence sets immediately afterwards (it is set unconditionally —
no branch aborts the boot). -/
structure NetOutcome where
  attempts : List String
  cfg : Config
  softap : Bool
  next_progress : Int
deriving DecidableEq, Repr

/-- The Wi-Fi connection step of `main_task` (main.cpp lines 185-206):
read `wifi_ssid`/`wifi_password` from config; if an SSID is stored, connect
with it (the result is ignored); otherwise try the fixed fallback network
"BE3600"/"19930101"; on fallback success persist those credentials; on
fallback failure start SoftAP mode.  Every branch falls through to
`loading_screen_set_progress(90)`. -/
def main_task_wifi_step (cfg : Config) (env : WifiEnv) : NetOutcome :=
  let ssid := config_get cfg "wifi_ssid" ""
  let password := config_get cfg "wifi_password" ""
  if ssid.length > 0 then
    let _ := env.connect_ok ssid password
    { attempts := [ssid], cfg := cfg, softap := false, next_progress := 90 }
  else if env.connect_ok "BE3600" "19930101" then
    let cfg1 := config_save cfg "wifi_ssid" "BE3600"
    let cfg2 := config_save cfg1 "wifi_password" "19930101"
    { attempts := ["BE3600"], cfg := cfg2, softap := false, next_progress := 90 }
  else
    { attempts := ["BE3600"], cfg := cfg, softap := true, next_progress := 90 }

/-! ### I2C bus singleton (i2c_bus_manager.cpp)

Handles are modelled as natural numbers drawn from a counter, so that
"returns the existing handle without reconstructing it" is the statement
that the very same handle value comes back and the counter does not move.
Whether `i2c_new_master_bus` / `i2c_master_bus_add_device` succeed is an
environment oracle. -/

/-- Environment oracle for the ESP-IDF I2C driver calls. -/
structure I2CEnv where
  new_bus_ok : Bool
  add_device_ok : Nat → Bool

/-- The module state of i2c_bus_manager.cpp: the singleton slot
`s_i2c_bus_handle` (none = nullptr) and a fresh-handle counter. -/
structure I2CState where
  bus : Option Nat
  next_handle : Nat
deriving DecidableEq, Repr

/-- `get_i2c_bus_handle` from i2c_bus_manager.cpp lines 9-33: if the
singleton slot is filled, return it unchanged; otherwise attempt
construction with the fixed bus configuration — on success fill the slot,
on failure return nullptr leaving the slot empty.  The third component
counts the construction attempts (calls to `i2c_new_master_bus`) the call
performed. -/
def get_i2c_bus_handle (env : I2CEnv) (s : I2CState) :
    Option Nat × I2CState × Nat :=
  match s.bus with
  | some h => (some h, s, 0)
  | none =>
    if env.new_bus_ok then
      (some s.next_handle,
       { bus := some s.next_handle, next_handle := s.next_handle + 1 }, 1)
    else (none, s, 1)

/-- `create_i2c_device` from i2c_bus_manager.cpp lines 35-56: obtain the
bus via `get_i2c_bus_handle`; if absent return nullptr; otherwise add a
device at the address — a device handle is modelled as the pair of the bus
handle it was created from and the address.  A failed add returns nullptr
and does not touch the bus slot. -/
def create_i2c_device (env : I2CEnv) (s : I2CState) (addr : Nat) :
    Option (Nat × Nat) × I2CState :=
  let p := get_i2c_bus_handle env s
  match p.1 with
  | none => (none, p.2.1)
  | some bus =>
    if env.add_device_ok addr then (some (bus, addr), p.2.1)
    else (none, p.2.1)

/-! ### Helper lemmas -/

/-- `standby_screen_update` changes at most the throttle timestamp. -/
theorem standby_screen_update_ex (s : ScreenState) (now : Int) :
    ∃ t : Int, standby_screen_update s now = { s with standby_last_update := t } := by
  unfold standby_screen_update
  split
  · exact ⟨s.standby_last_update, rfl⟩
  split
  · exact ⟨s.standby_last_update, rfl⟩
  · exact ⟨now, rfl⟩

@[simp] theorem standby_screen_update_disp (s : ScreenState) (now : Int) :
    (standby_screen_update s now).disp = s.disp := by
  obtain ⟨t, h⟩ := standby_screen_update_ex s now; rw [h]

@[simp] theorem standby_screen_update_standby_obj (s : ScreenState) (now : Int) :
    (standby_screen_update s now).standby_obj = s.standby_obj := by
  obtain ⟨t, h⟩ := standby_screen_update_ex s now; rw [h]

@[simp] theorem standby_screen_update_loading_obj (s : ScreenState) (now : Int) :
    (standby_screen_update s now).loading_obj = s.loading_obj := by
  obtain ⟨t, h⟩ := standby_screen_update_ex s now; rw [h]

@[simp] theorem standby_screen_update_launcher_obj (s : ScreenState) (now : Int) :
    (standby_screen_update s now).launcher_obj = s.launcher_obj := by
  obtain ⟨t, h⟩ := standby_screen_update_ex s now; rw [h]

@[simp] theorem standby_screen_update_standby_visible (s : ScreenState) (now : Int) :
    (standby_screen_update s now).standby_visible = s.standby_visible := by
  obtain ⟨t, h⟩ := standby_screen_update_ex s now; rw [h]

@[simp] theorem standby_screen_update_loading_visible (s : ScreenState) (now : Int) :
    (standby_screen_update s now).loading_visible = s.loading_visible := by
  obtain ⟨t, h⟩ := standby_screen_update_ex s now; rw [h]

@[simp] theorem standby_screen_update_launcher_visible (s : ScreenState) (now : Int) :
    (standby_screen_update s now).launcher_visible = s.launcher_visible := by
  obtain ⟨t, h⟩ := standby_screen_update_ex s now; rw [h]

@[simp] theorem standby_screen_update_loaded (s : ScreenState) (now : Int) :
    (standby_screen_update s now).loaded = s.loaded := by
  obtain ⟨t, h⟩ := standby_screen_update_ex s now; rw [h]

@[simp] theorem standby_screen_update_loading_message (s : ScreenState) (now : Int) :
    (standby_screen_update s now).loading_message = s.loading_message := by
  obtain ⟨t, h⟩ := standby_screen_update_ex s now; rw [h]

@[simp] theorem standby_screen_update_loading_progress (s : ScreenState) (now : Int) :
    (standby_screen_update s now).loading_progress = s.loading_progress := by
  obtain ⟨t, h⟩ := standby_screen_update_ex s now; rw [h]

@[simp] theorem standby_screen_update_cb_set (s : ScreenState) (now : Int) :
    (standby_screen_update s now).cb_set = s.cb_set := by
  obtain ⟨t, h⟩ := standby_screen_update_ex s now; rw [h]

/-- The state after `standby_screen_show`, in closed form. -/
theorem standby_screen_show_state (s : ScreenState) (now : Int) :
    (standby_screen_show s now).1 =
      { s with standby_obj := true, standby_visible := true,
               loaded := some Scr.standby,
               standby_last_update := if now < 1000 then 0 else now } := by
  obtain ⟨disp, sobj, lobj, laobj, sv, lv, lav, ld, lu, msg, pr, cb⟩ := s
  unfold standby_screen_show standby_screen_init standby_screen_update
  cases sobj <;> simp [sub_zero] <;> split <;> rfl

/-- The events emitted by `standby_screen_show`, in closed form. -/
theorem standby_screen_show_trace (s : ScreenState) (now : Int) :
    (standby_screen_show s now).2 =
      (if s.standby_obj then ([] : List Ev) else [Ev.construct Scr.standby]) ++
        [Ev.load Scr.standby, Ev.setVisible Scr.standby true] := by
  obtain ⟨disp, sobj, lobj, laobj, sv, lv, lav, ld, lu, msg, pr, cb⟩ := s
  unfold standby_screen_show standby_screen_init
  cases sobj <;> simp

/-- The state after `launcher_show`, in closed form. -/
theorem launcher_show_state (s : ScreenState) :
    (launcher_show s).1 =
      { s with launcher_obj := true, launcher_visible := true,
               loaded := some Scr.launcher } := by
  obtain ⟨disp, sobj, lobj, laobj, sv, lv, lav, ld, lu, msg, pr, cb⟩ := s
  unfold launcher_show launcher_init
  cases laobj <;> simp

/-- The events emitted by `launcher_show`, in closed form. -/
theorem launcher_show_trace (s : ScreenState) :
    (launcher_show s).2 =
      (if s.launcher_obj then ([] : List Ev) else [Ev.construct Scr.launcher]) ++
        [Ev.load Scr.launcher, Ev.setVisible Scr.launcher true] := by
  obtain ⟨disp, sobj, lobj, laobj, sv, lv, lav, ld, lu, msg, pr, cb⟩ := s
  unfold launcher_show launcher_init
  cases laobj <;> simp

/-- The state after `loading_screen_show` when the display is available,
in closed form. -/
theorem loading_screen_show_state (s : ScreenState) (hd : s.disp = true) :
    (loading_screen_show s).1 =
      { s with loading_obj := true, loading_visible := true,
               loaded := some Scr.loading, loading_message := "初始化中...",
               loading_progress := 0 } := by
  obtain ⟨disp, sobj, lobj, laobj, sv, lv, lav, ld, lu, msg, pr, cb⟩ := s
  subst hd
  unfold loading_screen_show loading_screen_init loading_screen_set_message
    loading_screen_set_progress clamp_percent
  cases lobj <;> simp

/-- The events emitted by `loading_screen_show` when the display is
available, in closed form. -/
theorem loading_screen_show_trace (s : ScreenState) (hd : s.disp = true) :
    (loading_screen_show s).2 =
      (if s.loading_obj then ([] : List Ev) else [Ev.construct Scr.loading]) ++
        [Ev.load Scr.loading, Ev.setVisible Scr.loading true] := by
  obtain ⟨disp, sobj, lobj, laobj, sv, lv, lav, ld, lu, msg, pr, cb⟩ := s
  subst hd
  unfold loading_screen_show loading_screen_init
  cases lobj <;> simp

/-- The state after `launcher_hide`, in closed form: the launcher flag is
cleared and Standby is (constructed and) shown. -/
theorem launcher_hide_state (s : ScreenState) (now : Int) :
    (launcher_hide s now).1 =
      { s with launcher_visible := false, standby_obj := true,
               standby_visible := true, loaded := some Scr.standby,
               standby_last_update := if now < 1000 then 0 else now } := by
  unfold launcher_hide
  rw [standby_screen_show_state]

/-! ### Claim theorems -/

/-- C1 (counterexample): the claim that at most one visibility flag is ever
true fails: in the two-operation sequence `standby_screen_show` then
`launcher_show` from the initial state, both `standby_visible` and
`launcher_visible` are true after the second show returns, because
`launcher_show` never clears the standby flag. -/
theorem c1_counterexample :
    (run initState [.standbyShow 0, .launcherShow]).standby_visible = true ∧
    (run initState [.standbyShow 0, .launcherShow]).launcher_visible = true := by
  exact ⟨rfl, rfl⟩

/-- C1 (amended): immediately after each show call returns (given the
display is initialised, as `app_main` guarantees), the shown variant's
visibility flag is true and its screen object is the loaded one — so at
least one flag is true after the first show; but since show calls do not
clear the other variants' flags, more than one flag can be true at once and
the claimed mutual exclusion does not hold. -/
theorem c1_at_least_one_visible (s : ScreenState) (now : Int) (hd : s.disp = true) :
    (standby_screen_show s now).1.standby_visible = true ∧
    (standby_screen_show s now).1.loaded = some Scr.standby ∧
    (launcher_show s).1.launcher_visible = true ∧
    (launcher_show s).1.loaded = some Scr.launcher ∧
    (loading_screen_show s).1.loading_visible = true ∧
    (loading_screen_show s).1.loaded = some Scr.loading := by
  refine ⟨?_, ?_, ?_, ?_, ?_, ?_⟩ <;>
    cases hs : s.standby_obj <;> cases hl : s.loading_obj <;>
      cases ha : s.launcher_obj <;>
      simp_all [standby_screen_show, standby_screen_init, launcher_show,
        launcher_init, loading_screen_show, loading_screen_init,
        loading_screen_set_message, loading_screen_set_progress]

/-- C1 (witness): the amended statement at the initial state. -/
theorem c1_at_least_one_visible_witness :
    (standby_screen_show initState 0).1.standby_visible = true ∧
    (standby_screen_show initState 0).1.loaded = some Scr.standby ∧
    (launcher_show initState).1.launcher_visible = true ∧
    (launcher_show initState).1.loaded = some Scr.launcher ∧
    (loading_screen_show initState).1.loading_visible = true ∧
    (loading_screen_show initState).1.loaded = some Scr.loading :=
  c1_at_least_one_visible initState 0 rfl

/-- The launch callback produces exactly the application's show event,
whichever application is selected. -/
theorem app_launch_callback_eq (a : AppType) :
    app_launch_callback a = [Ev.appShow a] := by
  cases a <;> rfl

/-- A reachable state used for C2: callback registered, boot showed
Standby, the user touched Standby so the Launcher is active. -/
def c2_state : ScreenState :=
  run initState [.setCb, .standbyShow 0, .standbyTouch]

/-- C2 (counterexample): clicking an application icon in a reachable
Launcher-active state with the callback registered emits the dispatch and
the application show first, and only then clears the Launcher's visibility
flag (which in turn re-shows Standby): the claimed order — hide first, then
dispatch/show — is violated, and there are more than two observable
changes. -/
theorem c2_counterexample :
    (step c2_state (.appBtnClick .smart_response 5)).2 =
      [Ev.dispatch .smart_response, Ev.appShow .smart_response,
       Ev.setVisible Scr.launcher false, Ev.load Scr.standby,
       Ev.setVisible Scr.standby true] := by
  rfl

/-- C2 (amended): for every state with a registered launch callback, the
click handler dispatches the launch callback exactly once, but the dispatch
and the application show come first, followed by clearing the Launcher's
visibility flag and re-showing Standby (loading its screen, constructing it
first if never built): dispatch precedes the hide, and the hide itself
re-shows Standby. -/
theorem c2_dispatch_then_hide (s : ScreenState) (a : AppType) (now : Int)
    (h : s.cb_set = true) :
    (app_btn_event_cb s a now).2 =
      [Ev.dispatch a, Ev.appShow a, Ev.setVisible Scr.launcher false] ++
        (if s.standby_obj then ([] : List Ev) else [Ev.construct Scr.standby]) ++
        [Ev.load Scr.standby, Ev.setVisible Scr.standby true] ∧
    (app_btn_event_cb s a now).2.count (Ev.dispatch a) = 1 ∧
    (app_btn_event_cb s a now).1.launcher_visible = false ∧
    (app_btn_event_cb s a now).1.standby_visible = true := by
  cases hs : s.standby_obj <;>
    simp_all [app_btn_event_cb, launcher_hide, standby_screen_show,
      standby_screen_init, app_launch_callback_eq, List.count_cons,
      List.count_nil]

/-- C2 (witness): the amended statement at the reachable state `c2_state`. -/
theorem c2_dispatch_then_hide_witness :
    (app_btn_event_cb c2_state .smart_response 5).2 =
      [Ev.dispatch .smart_response, Ev.appShow .smart_response,
       Ev.setVisible Scr.launcher false] ++
        (if c2_state.standby_obj then ([] : List Ev)
         else [Ev.construct Scr.standby]) ++
        [Ev.load Scr.standby, Ev.setVisible Scr.standby true] ∧
    (app_btn_event_cb c2_state .smart_response 5).2.count
        (Ev.dispatch .smart_response) = 1 ∧
    (app_btn_event_cb c2_state .smart_response 5).1.launcher_visible = false ∧
    (app_btn_event_cb c2_state .smart_response 5).1.standby_visible = true :=
  c2_dispatch_then_hide c2_state .smart_response 5 rfl

/-- C3 (code behaviour at the failing input): with Standby visible, the PWR
button callback shows the Launcher but leaves `standby_visible` true, so
Standby does not become invisible; and because the flag stays true, a second
PWR press re-shows the Launcher instead of returning to Standby — the
handler's own else-if branch for that return is unreachable from this
state. -/
theorem c3_pwr_leaves_standby_visible :
    (run initState [.standbyShow 0, .pwrBtn 1]).launcher_visible = true ∧
    (run initState [.standbyShow 0, .pwrBtn 1]).standby_visible = true ∧
    (run initState [.standbyShow 0, .pwrBtn 1, .pwrBtn 2]).launcher_visible = true ∧
    (run initState [.standbyShow 0, .pwrBtn 1, .pwrBtn 2]).standby_visible = true ∧
    (run initState [.standbyShow 0, .pwrBtn 1, .pwrBtn 2]).loaded
      = some Scr.launcher := by
  exact ⟨rfl, rfl, rfl, rfl, rfl⟩

/-- A reachable state with both Standby and Launcher visibility flags true:
boot showed Standby, then the PWR button was pressed. -/
def c4_state : ScreenState := run initState [.standbyShow 0, .pwrBtn 1]

/-- C4 (counterexample): on the reachable state `c4_state` (both flags
true), the PWR and BOOT callbacks are not observationally equivalent: PWR
re-shows the Launcher (its flag stays true) while BOOT hides it (its flag
becomes false). -/
theorem c4_counterexample :
    c4_state.standby_visible = true ∧
    c4_state.launcher_visible = true ∧
    (pwr_button_callback c4_state 2).1.launcher_visible = true ∧
    (boot_button_callback c4_state 2).1.launcher_visible = false := by
  exact ⟨rfl, rfl, rfl, rfl⟩

/-- C4 (amended): the PWR and BOOT button callbacks produce identical
results (state and events) on every state in which Standby and Launcher are
not both visible; they differ exactly on the both-visible states, which are
reachable (see the counterexample). -/
theorem c4_equiv_when_not_both_visible (s : ScreenState) (now : Int)
    (h : ¬(s.standby_visible = true ∧ s.launcher_visible = true)) :
    pwr_button_callback s now = boot_button_callback s now := by
  cases hs : s.standby_visible <;> cases hl : s.launcher_visible <;>
    simp_all [pwr_button_callback, boot_button_callback]

/-- C4 (witness): the amended statement at the initial state. -/
theorem c4_equiv_when_not_both_visible_witness :
    pwr_button_callback initState 3 = boot_button_callback initState 3 :=
  c4_equiv_when_not_both_visible initState 3 (by decide)

/-- C5 (counterexample): a hide on an already-hidden screen is not a no-op
for the Launcher: in the initial state the Launcher is already hidden, yet
`launcher_hide` constructs and shows Standby, changing the state. -/
theorem c5_counterexample :
    initState.launcher_visible = false ∧
    initState.standby_visible = false ∧
    (launcher_hide initState 0).1.standby_visible = true ∧
    (launcher_hide initState 0).1.standby_obj = true := by
  exact ⟨rfl, rfl, rfl, rfl⟩

/-- C5 (amended): for each of the three screens, hiding twice in succession
produces the same state as hiding once; a hide on an already-hidden screen
is a no-op for Standby and for Loading, but not for the Launcher, whose
hide also re-shows Standby. -/
theorem c5_hide_idempotent (s : ScreenState) (now : Int) :
    (standby_screen_hide (standby_screen_hide s).1).1 = (standby_screen_hide s).1 ∧
    (loading_screen_hide (loading_screen_hide s).1).1 = (loading_screen_hide s).1 ∧
    (launcher_hide (launcher_hide s now).1 now).1 = (launcher_hide s now).1 ∧
    (s.standby_visible = false → (standby_screen_hide s).1 = s) ∧
    (s.loading_visible = false → (loading_screen_hide s).1 = s) := by
  refine ⟨rfl, rfl, ?_, ?_, ?_⟩
  · rw [launcher_hide_state, launcher_hide_state]
  · intro h
    obtain ⟨disp, sobj, lobj, laobj, sv, lv, lav, ld, lu, msg, pr, cb⟩ := s
    simp only at h
    subst h
    rfl
  · intro h
    obtain ⟨disp, sobj, lobj, laobj, sv, lv, lav, ld, lu, msg, pr, cb⟩ := s
    simp only at h
    subst h
    rfl

/-- C5 (witness): the amended statement at the initial state. -/
theorem c5_hide_idempotent_witness :
    (standby_screen_hide (standby_screen_hide initState).1).1
      = (standby_screen_hide initState).1 ∧
    (loading_screen_hide (loading_screen_hide initState).1).1
      = (loading_screen_hide initState).1 ∧
    (launcher_hide (launcher_hide initState 0).1 0).1
      = (launcher_hide initState 0).1 ∧
    (initState.standby_visible = false → (standby_screen_hide initState).1 = initState) ∧
    (initState.loading_visible = false → (loading_screen_hide initState).1 = initState) :=
  c5_hide_idempotent initState 0

/-- No operation ever un-constructs a screen: once a screen object exists it
is reused, never rebuilt (given the display is available, as after
`app_main`). -/
theorem step_preserves_obj (s : ScreenState) (op : Op) (hd : s.disp = true) :
    (s.standby_obj = true → (step s op).1.standby_obj = true) ∧
    (s.loading_obj = true → (step s op).1.loading_obj = true) ∧
    (s.launcher_obj = true → (step s op).1.launcher_obj = true) := by
  cases op <;>
    simp only [step, standby_screen_hide, loading_screen_hide,
      loading_screen_set_message, loading_screen_set_progress,
      launcher_set_app_launch_callback, pwr_button_callback,
      boot_button_callback, standby_touch_event_cb, app_btn_event_cb] <;>
    (try split_ifs) <;>
    simp_all [standby_screen_show_state, launcher_show_state,
      launcher_hide_state, loading_screen_show_state]

/-- C6: a show call on a variant performs exactly one widget-tree
construction when the variant has never been constructed, and zero when it
already has been (display available); after any show the variant is
constructed, and no operation whatsoever destroys a construction — hence in
any operation sequence the first show of a variant constructs it exactly
once and all later shows construct nothing. -/
theorem c6_construct_once (s : ScreenState) (now : Int) (hd : s.disp = true) :
    ((standby_screen_show s now).2.count (Ev.construct Scr.standby)
        = if s.standby_obj then 0 else 1) ∧
    (standby_screen_show s now).1.standby_obj = true ∧
    ((launcher_show s).2.count (Ev.construct Scr.launcher)
        = if s.launcher_obj then 0 else 1) ∧
    (launcher_show s).1.launcher_obj = true ∧
    ((loading_screen_show s).2.count (Ev.construct Scr.loading)
        = if s.loading_obj then 0 else 1) ∧
    (loading_screen_show s).1.loading_obj = true ∧
    (∀ op : Op, s.standby_obj = true → (step s op).1.standby_obj = true) ∧
    (∀ op : Op, s.loading_obj = true → (step s op).1.loading_obj = true) ∧
    (∀ op : Op, s.launcher_obj = true → (step s op).1.launcher_obj = true) := by
  refine ⟨?_, ?_, ?_, ?_, ?_, ?_, fun op => (step_preserves_obj s op hd).1,
    fun op => (step_preserves_obj s op hd).2.1,
    fun op => (step_preserves_obj s op hd).2.2⟩
  · cases hs : s.standby_obj <;> simp [standby_screen_show_trace, hs]
  · simp [standby_screen_show_state]
  · cases hl : s.launcher_obj <;> simp [launcher_show_trace, hl]
  · simp [launcher_show_state]
  · cases hl : s.loading_obj <;> simp [loading_screen_show_trace s hd, hl]
  · simp [loading_screen_show_state s hd]

/-- C6 (witness): the statement at the initial state. -/
theorem c6_construct_once_witness :
    ((standby_screen_show initState 0).2.count (Ev.construct Scr.standby)
        = if initState.standby_obj then 0 else 1) ∧
    (standby_screen_show initState 0).1.standby_obj = true ∧
    ((launcher_show initState).2.count (Ev.construct Scr.launcher)
        = if initState.launcher_obj then 0 else 1) ∧
    (launcher_show initState).1.launcher_obj = true ∧
    ((loading_screen_show initState).2.count (Ev.construct Scr.loading)
        = if initState.loading_obj then 0 else 1) ∧
    (loading_screen_show initState).1.loading_obj = true ∧
    (∀ op : Op, initState.standby_obj = true → (step initState op).1.standby_obj = true) ∧
    (∀ op : Op, initState.loading_obj = true → (step initState op).1.loading_obj = true) ∧
    (∀ op : Op, initState.launcher_obj = true → (step initState op).1.launcher_obj = true) :=
  c6_construct_once initState 0 rfl

/-- C7: once the progress bar exists, `loading_screen_set_progress` stores
the input clamped to [0,100]; clamping is the identity on in-range values
and maps -5 to 0, 150 to 100 and 55 to 55. -/
theorem c7_progress_clamped (s : ScreenState) (p : Int)
    (h : s.loading_obj = true) :
    (loading_screen_set_progress s p).loading_progress = clamp_percent p ∧
    0 ≤ clamp_percent p ∧ clamp_percent p ≤ 100 ∧
    (0 ≤ p → p ≤ 100 → clamp_percent p = p) ∧
    clamp_percent (-5) = 0 ∧ clamp_percent 150 = 100 ∧ clamp_percent 55 = 55 := by
  refine ⟨?_, ?_, ?_, ?_, by decide, by decide, by decide⟩
  · simp [loading_screen_set_progress, h]
  · unfold clamp_percent; split_ifs <;> omega
  · unfold clamp_percent; split_ifs <;> omega
  · intro h1 h2; unfold clamp_percent; split_ifs <;> omega

/-- C7 (witness): the statement on a state whose loading screen exists. -/
theorem c7_progress_clamped_witness :
    (loading_screen_set_progress (loading_screen_show initState).1 55).loading_progress
        = clamp_percent 55 ∧
    0 ≤ clamp_percent 55 ∧ clamp_percent 55 ≤ 100 ∧
    (0 ≤ (55 : Int) → (55 : Int) ≤ 100 → clamp_percent 55 = 55) ∧
    clamp_percent (-5) = 0 ∧ clamp_percent 150 = 100 ∧ clamp_percent 55 = 55 :=
  c7_progress_clamped (loading_screen_show initState).1 55 (by decide)

/-- C8: when no Wi-Fi SSID is persisted, the boot network step attempts the
fixed fallback network "BE3600"; on fallback success both fallback
credentials are persisted for future boots and SoftAP is not started; on
fallback failure SoftAP mode is started and the configuration is untouched;
in every case the boot sequence continues (the step always falls through to
setting progress 90). -/
theorem c8_wifi_fallback (cfg : Config) (env : WifiEnv)
    (h : config_get cfg "wifi_ssid" "" = "") :
    (main_task_wifi_step cfg env).attempts = ["BE3600"] ∧
    (env.connect_ok "BE3600" "19930101" = true →
      config_get (main_task_wifi_step cfg env).cfg "wifi_ssid" "" = "BE3600" ∧
      config_get (main_task_wifi_step cfg env).cfg "wifi_password" "" = "19930101" ∧
      (main_task_wifi_step cfg env).softap = false) ∧
    (env.connect_ok "BE3600" "19930101" = false →
      (main_task_wifi_step cfg env).softap = true ∧
      (main_task_wifi_step cfg env).cfg = cfg) ∧
    (main_task_wifi_step cfg env).next_progress = 90 := by
  unfold main_task_wifi_step
  rw [h]
  cases hc : env.connect_ok "BE3600" "19930101" <;>
    simp_all [config_get, config_save, List.lookup]

/-- C8 (witness): the statement with an empty configuration store and an
environment in which the fallback connection succeeds. -/
theorem c8_wifi_fallback_witness :
    (main_task_wifi_step [] ⟨fun _ _ => true⟩).attempts = ["BE3600"] ∧
    ((⟨fun _ _ => true⟩ : WifiEnv).connect_ok "BE3600" "19930101" = true →
      config_get (main_task_wifi_step [] ⟨fun _ _ => true⟩).cfg "wifi_ssid" ""
        = "BE3600" ∧
      config_get (main_task_wifi_step [] ⟨fun _ _ => true⟩).cfg "wifi_password" ""
        = "19930101" ∧
      (main_task_wifi_step [] ⟨fun _ _ => true⟩).softap = false) ∧
    ((⟨fun _ _ => true⟩ : WifiEnv).connect_ok "BE3600" "19930101" = false →
      (main_task_wifi_step [] ⟨fun _ _ => true⟩).softap = true ∧
      (main_task_wifi_step [] ⟨fun _ _ => true⟩).cfg = []) ∧
    (main_task_wifi_step [] ⟨fun _ _ => true⟩).next_progress = 90 :=
  c8_wifi_fallback [] ⟨fun _ _ => true⟩ rfl

/-- C9: when the singleton slot already holds a bus handle,
`get_i2c_bus_handle` returns exactly that handle with zero construction
attempts; when the slot is empty it performs one construction attempt,
returning an absent handle (slot still empty) on failure and filling the
slot on success; a failed `create_i2c_device` leaves the bus slot unchanged,
and a later device creation for another address uses the very same bus
handle. -/
theorem c9_bus_singleton (env : I2CEnv) (s : I2CState) :
    (∀ h : Nat, s.bus = some h → get_i2c_bus_handle env s = (some h, s, 0)) ∧
    (s.bus = none → (get_i2c_bus_handle env s).2.2 = 1) ∧
    (s.bus = none → env.new_bus_ok = false →
      (get_i2c_bus_handle env s).1 = none ∧ (get_i2c_bus_handle env s).2.1 = s) ∧
    (s.bus = none → env.new_bus_ok = true →
      (get_i2c_bus_handle env s).1 = some s.next_handle ∧
      (get_i2c_bus_handle env s).2.1.bus = some s.next_handle) ∧
    (∀ addr h : Nat, s.bus = some h → env.add_device_ok addr = false →
      create_i2c_device env s addr = (none, s)) ∧
    (∀ addr addr2 h : Nat, s.bus = some h → env.add_device_ok addr = false →
      env.add_device_ok addr2 = true →
      create_i2c_device env (create_i2c_device env s addr).2 addr2
        = (some (h, addr2), s)) := by
  obtain ⟨bus, nh⟩ := s
  cases bus <;>
    cases hb : env.new_bus_ok <;>
    simp_all [get_i2c_bus_handle, create_i2c_device]

/-- C9 (witness): concrete runs — slot filled with handle 5, device add
fails at address 3 and succeeds at address 7. -/
theorem c9_bus_singleton_witness :
    get_i2c_bus_handle ⟨true, fun a => decide (a = 7)⟩ ⟨some 5, 6⟩
      = (some 5, ⟨some 5, 6⟩, 0) ∧
    create_i2c_device ⟨true, fun a => decide (a = 7)⟩ ⟨some 5, 6⟩ 3
      = (none, ⟨some 5, 6⟩) ∧
    create_i2c_device ⟨true, fun a => decide (a = 7)⟩
        (create_i2c_device ⟨true, fun a => decide (a = 7)⟩ ⟨some 5, 6⟩ 3).2 7
      = (some (5, 7), ⟨some 5, 6⟩) :=
  ⟨(c9_bus_singleton ⟨true, fun a => decide (a = 7)⟩ ⟨some 5, 6⟩).1 5 rfl,
   (c9_bus_singleton ⟨true, fun a => decide (a = 7)⟩ ⟨some 5, 6⟩).2.2.2.2.1
     3 5 rfl (by decide),
   (c9_bus_singleton ⟨true, fun a => decide (a = 7)⟩ ⟨some 5, 6⟩).2.2.2.2.2
     3 7 5 rfl (by decide) (by decide)⟩

/-- C10: `launcher_hide` does more than clear the Launcher's flag — in every
state it leaves Standby visible, constructed, and loaded on the render
surface; in particular the click handler of an application icon, whose
final step is `launcher_hide`, also re-shows Standby. -/
theorem c10_launcher_hide_shows_standby (s : ScreenState) (a : AppType)
    (now : Int) :
    (launcher_hide s now).1.launcher_visible = false ∧
    (launcher_hide s now).1.standby_visible = true ∧
    (launcher_hide s now).1.loaded = some Scr.standby ∧
    (launcher_hide s now).1.standby_obj = true ∧
    (app_btn_event_cb s a now).1.launcher_visible = false ∧
    (app_btn_event_cb s a now).1.standby_visible = true ∧
    (app_btn_event_cb s a now).1.loaded = some Scr.standby := by
  simp [app_btn_event_cb, launcher_hide_state]

end MindGraph
